import Mathlib

/-!
Shallow embedding of the image-upload skill (TypeScript sources under `src/`):
error taxonomy (`src/utils/errors.ts`), retrying HTTP transport
(`src/utils/fetch.ts`), magic-byte MIME sniffer (`src/utils/mime.ts`),
provider adapters and registry (`src/providers/*.ts`), configuration and
upload pipeline (`src/config/index.ts`, `src/upload.ts`).

Buffers are lists of byte values (`List Nat`); the HTTP transport is modelled
as a function from attempt index to that attempt's outcome, with the number
of fetch calls and the sleep durations recorded alongside the result;
fallible operations return `Except UploadError`.
-/

/-- `ErrorCategory` enum from `src/utils/errors.ts`. -/
inductive ErrorCategory where
  | FILE_SIZE_OVERFLOW
  | FILE_TYPE_RESTRICT
  | FILE_NOT_FOUND
  | AUTH_FAILURE
  | NETWORK_ERROR
  | API_ERROR
  | INVALID_RESPONSE
  | CONFIG_ERROR
deriving DecidableEq, Repr

/-- `UploadError` from `src/utils/errors.ts`: message, category and fatal flag.
The optional wrapped `cause` is not modelled (no claim depends on it). -/
structure UploadError where
  message : String
  category : ErrorCategory
  fatal : Bool
deriving DecidableEq, Repr

/-- JavaScript `a || b` on an optional string: `undefined` and `""` are falsy. -/
def jsOrStr (o : Option String) (dflt : String) : String :=
  match o with
  | some s => if s = "" then dflt else s
  | none => dflt

/-- JavaScript truthiness of an optional string (`undefined` and `""` are falsy). -/
def jsTruthy (o : Option String) : Bool :=
  match o with
  | some s => !(s == "")
  | none => false

/-- JavaScript `toLowerCase()`, character by character (the provider names are
ASCII, where `Char.toLower` agrees with JavaScript). -/
def jsToLower (s : String) : String :=
  String.mk (s.toList.map Char.toLower)

/-- A whitespace character as stripped by JavaScript `trim()` (the ASCII
whitespace characters; the responses involved are ASCII). -/
def isWsChar (c : Char) : Bool :=
  c == ' ' || c == '\t' || c == '\n' || c == '\r'

/-- JavaScript `trim()`: strip whitespace from both ends. -/
def jsTrim (l : List Char) : List Char :=
  ((l.dropWhile isWsChar).reverse.dropWhile isWsChar).reverse

/-- `fileSizeError` from `src/utils/errors.ts`. The source renders the sizes in
megabytes with floating-point `toFixed`; the message here renders the raw byte
counts instead (no claim depends on the message text), while category and
fatal flag are exactly the source's. -/
def fileSizeError (actualSize maxSize : Nat) (provider : String) : UploadError :=
  ⟨"File size (" ++ toString actualSize ++ " bytes) exceeds " ++ provider ++
      " limit (" ++ toString maxSize ++ " bytes)",
    ErrorCategory.FILE_SIZE_OVERFLOW, false⟩

/-- `fileTypeError` from `src/utils/errors.ts` (\x27 is the quote character
around the MIME type in the source's template literal). -/
def fileTypeError (mimeType : String) (supportedTypes : List String)
    (provider : String) : UploadError :=
  ⟨"File type \x27" ++ (if mimeType = "" then "unknown" else mimeType) ++
      "\x27 is not supported by " ++ provider ++ ". Supported: " ++
      String.intercalate ", " supportedTypes,
    ErrorCategory.FILE_TYPE_RESTRICT, false⟩

/-- `authError` from `src/utils/errors.ts`. -/
def authError (provider : String) (details : Option String) : UploadError :=
  match details with
  | some d => ⟨provider ++ " authentication failed: " ++ d,
      ErrorCategory.AUTH_FAILURE, true⟩
  | none => ⟨provider ++ " requires authentication. Please configure API key or credentials.",
      ErrorCategory.AUTH_FAILURE, true⟩

/-- `configError` from `src/utils/errors.ts`. -/
def configError (provider : String) (missing : String) : UploadError :=
  ⟨provider ++ " requires " ++ missing ++ ". Please check your .env configuration.",
    ErrorCategory.CONFIG_ERROR, true⟩

/-! ## Retrying transport (`fetchWithRetry` in `src/utils/fetch.ts`)

One attempt of the JavaScript `fetch` either yields a `Response` (status and
status text), aborts on timeout (`AbortError`), or fails with another network
fault. The transport is modelled as a function from attempt index to outcome.
-/

/-- Outcome of a single `fetch` call. -/
inductive FetchOutcome where
  | response (status : Nat) (statusText : String)
  | abort
  | fault (message : String)
deriving DecidableEq, Repr

deriving instance DecidableEq for Except

/-- Result of running `fetchWithRetry`: the returned response (status, status
text) or the raised `UploadError`, together with how many `fetch` calls were
made and the list of `sleep` durations (milliseconds) in order. -/
structure FetchRun where
  result : Except UploadError (Nat × String)
  fetchCalls : Nat
  delays : List Nat
deriving DecidableEq, Repr

/-- Account for one more `fetch` call and the `sleep(1000)` preceding the
recursive `fetchWithRetry(url, options, retries - 1)` call. -/
def retryStep (run : FetchRun) : FetchRun :=
  ⟨run.result, run.fetchCalls + 1, 1000 :: run.delays⟩

/-- `fetchWithRetry` from `src/utils/fetch.ts`, at attempt index `i` with
retry budget `retries`; `t` is the timeout (only used in the timeout message).

Control flow of the source, traced precisely: a non-2xx response first takes
`shouldRetry = status >= 500 && retries > 0`; if false it throws a non-fatal
NETWORK_ERROR — but that `throw` sits inside the function's own `try`, so the
`catch` block receives it, sees a non-fatal `UploadError`, and when
`retries > 0` sleeps 1000 ms and retries. Hence for `retries > 0` a 4xx
response is retried exactly like a 5xx one (both arms of the `if` below),
despite the source comment "Don't retry client errors (4xx)". Every retry
test of the source consults `retries > 0`, so the single source body is
rendered split on the budget: the `retries = 0` clause collects the raise
branches, the `retries = r + 1` clause the retry branches (`r` is
`retries - 1`). `AbortError` and other faults retry the same way and surface
as NETWORK_ERROR when the budget is exhausted. -/
def fetchWithRetry (oc : Nat → FetchOutcome) (t : Nat) : Nat → Nat → FetchRun
  | i, 0 =>
    match oc i with
    | .response status statusText =>
      if 200 ≤ status ∧ status ≤ 299 then
        -- response.ok: return the response
        ⟨.ok (status, statusText), 1, []⟩
      else
        -- shouldRetry is false; the thrown error is re-thrown by the catch
        ⟨.error ⟨"HTTP " ++ toString status ++ ": " ++ statusText,
            ErrorCategory.NETWORK_ERROR, false⟩, 1, []⟩
    | .abort =>
      ⟨.error ⟨"Request timed out after " ++ toString t ++ "ms",
          ErrorCategory.NETWORK_ERROR, false⟩, 1, []⟩
    | .fault message =>
      ⟨.error ⟨jsOrStr (some message) "Network request failed",
          ErrorCategory.NETWORK_ERROR, false⟩, 1, []⟩
  | i, r + 1 =>
    match oc i with
    | .response status statusText =>
      if 200 ≤ status ∧ status ≤ 299 then
        -- response.ok: return the response
        ⟨.ok (status, statusText), 1, []⟩
      else if 500 ≤ status then
        -- shouldRetry path for 5xx
        retryStep (fetchWithRetry oc t (i + 1) r)
      else
        -- 4xx: the thrown NETWORK_ERROR is caught by the own catch, is
        -- non-fatal, and the budget is positive, so it is retried too
        retryStep (fetchWithRetry oc t (i + 1) r)
    | .abort => retryStep (fetchWithRetry oc t (i + 1) r)
    | .fault _ => retryStep (fetchWithRetry oc t (i + 1) r)

/-- A whole `fetchWithRetry(url, options, retries)` call starts at attempt 0. -/
def fetchWithRetryRun (oc : Nat → FetchOutcome) (t retries : Nat) : FetchRun :=
  fetchWithRetry oc t 0 retries

/-- A transport whose every attempt is `HTTP 404 Not Found`. -/
def const404 : Nat → FetchOutcome := fun _ => .response 404 "Not Found"

/-- A transport whose every attempt is `HTTP 500 Server Error`. -/
def const500 : Nat → FetchOutcome := fun _ => .response 500 "Server Error"

/-- A transport answering 500 on the first attempt and 200 afterwards. -/
def oc500then200 : Nat → FetchOutcome :=
  fun i => if i = 0 then .response 500 "Server Error" else .response 200 "OK"

/-! ## MIME sniffer (`src/utils/mime.ts`) -/

/-- One entry of the magic-byte table (`BitmapPatternItem`). The documentation
field `note` of the source is omitted. -/
structure BitmapPatternItem where
  pattern : List Nat
  mask : List Nat
  ignored : List Nat
  type : String

/-- `UNKNOWN_BITMAP_MIME` from `src/utils/mime.ts`. -/
def UNKNOWN_BITMAP_MIME : String := ""

/-- `BITMAP_PATTERN_TABLE` from `src/utils/mime.ts`: ICO, CUR, BMP, GIF87a,
GIF89a, WEBP, PNG, JPEG — in that order. -/
def BITMAP_PATTERN_TABLE : List BitmapPatternItem := [
  ⟨[0x00, 0x00, 0x01, 0x00], [0xff, 0xff, 0xff, 0xff], [], "image/x-icon"⟩,
  ⟨[0x00, 0x00, 0x02, 0x00], [0xff, 0xff, 0xff, 0xff], [], "image/x-icon"⟩,
  ⟨[0x42, 0x4d], [0xff, 0xff], [], "image/bmp"⟩,
  ⟨[0x47, 0x49, 0x46, 0x38, 0x37, 0x61], [0xff, 0xff, 0xff, 0xff, 0xff, 0xff], [], "image/gif"⟩,
  ⟨[0x47, 0x49, 0x46, 0x38, 0x39, 0x61], [0xff, 0xff, 0xff, 0xff, 0xff, 0xff], [], "image/gif"⟩,
  ⟨[0x52, 0x49, 0x46, 0x46, 0x00, 0x00, 0x00, 0x00, 0x57, 0x45, 0x42, 0x50, 0x56, 0x50],
    [0xff, 0xff, 0xff, 0xff, 0x00, 0x00, 0x00, 0x00, 0xff, 0xff, 0xff, 0xff, 0xff, 0xff],
    [], "image/webp"⟩,
  ⟨[0x89, 0x50, 0x4e, 0x47, 0x0d, 0x0a, 0x1a, 0x0a],
    [0xff, 0xff, 0xff, 0xff, 0xff, 0xff, 0xff, 0xff], [], "image/png"⟩,
  ⟨[0xff, 0xd8, 0xff], [0xff, 0xff, 0xff], [], "image/jpeg"⟩]

/-- The pattern-matching loop of `isPatternMatch`: compare
`buffer[s] & mask[p]` with `pattern[p]` for each pattern byte, advancing `s`
and `p` together. The source's index `p` over `pattern`/`mask` is rendered by
consuming the two lists in lockstep; reading past the end of an array in
JavaScript yields `undefined`, which the bitwise `&` coerces to 0, so
out-of-range reads are `getD`/`headD` with default 0. -/
def matchLoop (buffer : List Nat) : Nat → List Nat → List Nat → Bool
  | _, [], _ => true
  | s, pb :: prest, msk =>
    if buffer.getD s 0 &&& msk.headD 0 = pb then
      matchLoop buffer (s + 1) prest msk.tail
    else false

/-- `isPatternMatch` from `src/utils/mime.ts`: a buffer shorter than the
pattern never matches; leading bytes listed in `ignored` are skipped (the
`while` loop computes the length of the longest all-ignored prefix); then the
masked comparison runs over the pattern. -/
def isPatternMatch (buffer : List Nat) (item : BitmapPatternItem) : Bool :=
  if buffer.length < item.pattern.length then false
  else
    matchLoop buffer
      ((buffer.takeWhile (fun b => item.ignored.contains b)).length)
      item.pattern item.mask

/-- The `for` loop of `detectMimeType`: first matching table entry wins. -/
def detectAux (buffer : List Nat) : List BitmapPatternItem → String
  | [] => UNKNOWN_BITMAP_MIME
  | item :: rest => if isPatternMatch buffer item then item.type else detectAux buffer rest

/-- `detectMimeType` from `src/utils/mime.ts`. -/
def detectMimeType (buffer : List Nat) : String :=
  detectAux buffer BITMAP_PATTERN_TABLE

/-- Specification-side reading of "the buffer's initial bytes satisfy
`(byte & mask) == pattern_byte` for every byte of the entry's pattern":
the buffer is at least as long as the pattern and every pattern position
matches under the mask. Stated independently of `isPatternMatch` so the code
can be checked against it. -/
def initialBytesMatchB (buffer : List Nat) (item : BitmapPatternItem) : Bool :=
  decide (item.pattern.length ≤ buffer.length) &&
    (List.range item.pattern.length).all fun p =>
      buffer.getD p 0 &&& item.mask.getD p 0 == item.pattern.getD p 0

/-- The 8-byte PNG signature. -/
def pngSignature : List Nat := [0x89, 0x50, 0x4e, 0x47, 0x0d, 0x0a, 0x1a, 0x0a]

/-! ## Provider types (`src/providers/types.ts`) -/

/-- The `formatted` block of an `UploadResult`. -/
structure FormattedOutput where
  url : String
  markdown : String
  html : String
  bbcode : String
deriving DecidableEq, Repr

/-- `createFormattedOutput` from `src/providers/types.ts`; the template
literals are rendered as concatenations. Every call site in the sources
passes the name explicitly, so the `name = "image"` default parameter is
never exercised and is not modelled. -/
def createFormattedOutput (url : String) (name : String) : FormattedOutput :=
  ⟨url,
    "![" ++ name ++ "](" ++ url ++ ")",
    "<img src=\"" ++ url ++ "\" alt=\"" ++ name ++ "\">",
    "[IMG]" ++ url ++ "[/IMG]"⟩

/-- `UploadResult` from `src/providers/types.ts`. -/
structure UploadResultModel where
  id : String
  url : String
  viewerUrl : Option String
  deleteUrl : Option String
  size : Option Nat
  width : Option Nat
  height : Option Nat
  formatted : FormattedOutput
deriving DecidableEq, Repr

/-- `ProviderConfig` from `src/providers/types.ts`: the keys the six adapters
read. (The source type is an open bag; only these four keys are ever read.) -/
structure ProviderConfig where
  apiKey : Option String
  clientId : Option String
  userHash : Option String
  cookies : Option String
deriving DecidableEq, Repr

/-- The class-level metadata every adapter declares (`name`, `displayName`,
`requiresConfig`, `maxFileSize`, `supportedTypes`). -/
structure ProviderMeta where
  name : String
  displayName : String
  requiresConfig : Bool
  maxFileSize : Nat
  supportedTypes : List String
deriving DecidableEq, Repr

/-- `CatboxProvider` declarations from `src/providers/catbox.ts`. -/
def catboxMeta : ProviderMeta :=
  ⟨"catbox", "Catbox.moe", false, 200 * 1024 * 1024,
    ["image/jpeg", "image/png", "image/gif", "image/webp", "image/bmp", "image/x-icon"]⟩

/-- `ImgBBProvider` declarations from `src/providers/imgbb.ts`. -/
def imgbbMeta : ProviderMeta :=
  ⟨"imgbb", "ImgBB", true, 32 * 1024 * 1024,
    ["image/jpeg", "image/png", "image/gif", "image/webp", "image/bmp"]⟩

/-- `ImgurProvider` declarations from `src/providers/imgur.ts`. -/
def imgurMeta : ProviderMeta :=
  ⟨"imgur", "Imgur", true, 20 * 1024 * 1024,
    ["image/jpeg", "image/png", "image/gif", "image/apng", "image/tiff"]⟩

/-- `FreeimageProvider` declarations from `src/providers/freeimage.ts`. -/
def freeimageMeta : ProviderMeta :=
  ⟨"freeimage", "Freeimage.host", true, 64 * 1024 * 1024,
    ["image/jpeg", "image/png", "image/gif", "image/webp", "image/bmp"]⟩

/-- `ImgHippoProvider` declarations from `src/providers/imghippo.ts`. -/
def imghippoMeta : ProviderMeta :=
  ⟨"imghippo", "ImgHippo", true, 50 * 1024 * 1024,
    ["image/jpeg", "image/png", "image/gif", "image/webp"]⟩

/-- `WeiboProvider` declarations from `src/providers/weibo.ts`; note the
source constant is `20 * 1024 * 1024 - 1` ("~20MB"). -/
def weiboMeta : ProviderMeta :=
  ⟨"weibo", "Weibo (Legacy)", true, 20 * 1024 * 1024 - 1,
    ["image/jpeg", "image/png", "image/apng", "image/gif"]⟩

/-! ## Provider registry (`src/providers/index.ts`) -/

/-- The six provider classes, as a closed enumeration of constructors. -/
inductive ProviderKey where
  | catbox
  | imgbb
  | imgur
  | freeimage
  | imghippo
  | weibo
deriving DecidableEq, Repr

/-- `providerRegistry` from `src/providers/index.ts` (a `Map` built by six
`set` calls, in insertion order). -/
def providerRegistry : List (String × ProviderKey) :=
  [("catbox", .catbox), ("imgbb", .imgbb), ("imgur", .imgur),
    ("freeimage", .freeimage), ("imghippo", .imghippo), ("weibo", .weibo)]

/-- `getAvailableProviders` from `src/providers/index.ts`. -/
def getAvailableProviders : List String :=
  providerRegistry.map Prod.fst

/-- An entry of the static listing table of `getProviderInfo`. -/
structure ProviderInfo where
  name : String
  displayName : String
  requiresConfig : Bool
  maxFileSize : Nat
deriving DecidableEq, Repr

/-- `getProviderInfo` from `src/providers/index.ts` — the static metadata
table used for listings, transcribed literally. -/
def getProviderInfo : List ProviderInfo :=
  [⟨"catbox", "Catbox.moe", false, 200 * 1024 * 1024⟩,
    ⟨"imgbb", "ImgBB", true, 32 * 1024 * 1024⟩,
    ⟨"imgur", "Imgur", true, 20 * 1024 * 1024⟩,
    ⟨"freeimage", "Freeimage.host", true, 64 * 1024 * 1024⟩,
    ⟨"imghippo", "ImgHippo", true, 50 * 1024 * 1024⟩,
    ⟨"weibo", "Weibo (Legacy)", true, 20 * 1024 * 1024⟩]

/-- A constructed adapter instance: its metadata plus the credentials the
constructor stored. -/
structure ProviderInstance where
  meta : ProviderMeta
  apiKey : Option String
  clientId : Option String
  userHash : Option String
  cookies : Option String
deriving DecidableEq, Repr

/-- The `CatboxProvider` constructor: the user hash is optional, construction
never fails. -/
def constructCatbox (cfg : ProviderConfig) : Except UploadError ProviderInstance :=
  .ok ⟨catboxMeta, none, none, cfg.userHash, none⟩

/-- The `ImgBBProvider` constructor: `if (!config.apiKey) throw configError`. -/
def constructImgbb (cfg : ProviderConfig) : Except UploadError ProviderInstance :=
  if !(jsTruthy cfg.apiKey) then
    .error (configError "ImgBB" "API key (get one free at https://api.imgbb.com/)")
  else .ok ⟨imgbbMeta, cfg.apiKey, none, none, none⟩

/-- The `ImgurProvider` constructor: `if (!config.clientId) throw configError`. -/
def constructImgur (cfg : ProviderConfig) : Except UploadError ProviderInstance :=
  if !(jsTruthy cfg.clientId) then
    .error (configError "Imgur" "Client-ID (register at https://api.imgur.com/oauth2/addclient)")
  else .ok ⟨imgurMeta, none, cfg.clientId, none, none⟩

/-- The `FreeimageProvider` constructor: `if (!config.apiKey) throw configError`. -/
def constructFreeimage (cfg : ProviderConfig) : Except UploadError ProviderInstance :=
  if !(jsTruthy cfg.apiKey) then
    .error (configError "Freeimage.host" "API key (get one free at https://freeimage.host/page/api)")
  else .ok ⟨freeimageMeta, cfg.apiKey, none, none, none⟩

/-- The `ImgHippoProvider` constructor: `if (!config.apiKey) throw configError`. -/
def constructImghippo (cfg : ProviderConfig) : Except UploadError ProviderInstance :=
  if !(jsTruthy cfg.apiKey) then
    .error (configError "ImgHippo" "API key (get one at https://www.imghippo.com/)")
  else .ok ⟨imghippoMeta, cfg.apiKey, none, none, none⟩

/-- The `WeiboProvider` constructor: `if (!config.cookies) throw configError`. -/
def constructWeibo (cfg : ProviderConfig) : Except UploadError ProviderInstance :=
  if !(jsTruthy cfg.cookies) then
    .error (configError "Weibo" "cookies (export from browser after logging into weibo.com)")
  else .ok ⟨weiboMeta, none, none, none, cfg.cookies⟩

/-- Dispatch `new ProviderClass(config)` for a registry entry. -/
def constructFor : ProviderKey → ProviderConfig → Except UploadError ProviderInstance
  | .catbox, cfg => constructCatbox cfg
  | .imgbb, cfg => constructImgbb cfg
  | .imgur, cfg => constructImgur cfg
  | .freeimage, cfg => constructFreeimage cfg
  | .imghippo, cfg => constructImghippo cfg
  | .weibo, cfg => constructWeibo cfg

/-- The name-resolution step of `createProvider`: lowercase the name, then
look it up in the registry map. -/
def resolveConstructor (name : String) : Option ProviderKey :=
  providerRegistry.lookup (jsToLower name)

/-- `createProvider` from `src/providers/index.ts`: unknown names raise a
fatal CONFIG_ERROR listing all valid names; otherwise the resolved class is
constructed with the given config. -/
def createProvider (name : String) (cfg : ProviderConfig) :
    Except UploadError ProviderInstance :=
  match resolveConstructor name with
  | none =>
    .error ⟨"Unknown provider: " ++ name ++ ". Available providers: " ++
        String.intercalate ", " getAvailableProviders,
      ErrorCategory.CONFIG_ERROR, true⟩
  | some key => constructFor key cfg

/-- `isValidProvider` from `src/providers/index.ts`. -/
def isValidProvider (name : String) : Bool :=
  (providerRegistry.lookup (jsToLower name)).isSome

/-! ## Response handling of the six adapters

Each adapter's `upload` builds a request (I/O, not modelled), receives the
provider's response, and parses it into an `UploadResult` or a raised
`UploadError`. The parsing is embedded below, one function per adapter, taking
the response data and the `filename` argument of `upload`.
-/

/-- `CatboxProvider.getExtension` (`src/providers/catbox.ts`). -/
def catboxGetExtension (mimeType : Option String) : String :=
  match mimeType with
  | some "image/jpeg" => ".jpg"
  | some "image/png" => ".png"
  | some "image/gif" => ".gif"
  | some "image/webp" => ".webp"
  | some "image/bmp" => ".bmp"
  | some "image/x-icon" => ".ico"
  | _ => ".png"

/-- Response handling of `CatboxProvider.upload`: the body must start with
`https://`; otherwise it is an API_ERROR (with the body as message, or a stock
message for an empty body). On success the URL is trimmed, the id is the last
`/`-separated segment (`pop() || ""`), and the display name is
`filename || id`. -/
def catboxParse (text : String) (filename : Option String) :
    Except UploadError UploadResultModel :=
  if !("https://".toList.isPrefixOf text.toList) then
    .error ⟨jsOrStr (some text) "Upload failed - no URL returned",
      ErrorCategory.API_ERROR, false⟩
  else
    let url := String.mk (jsTrim text.toList)
    let id := String.mk (((jsTrim text.toList).splitOn '/').getLast?.getD [])
    let name := jsOrStr filename id
    .ok ⟨id, url, none, none, none, none, none, createFormattedOutput url name⟩

/-- The `data` object of an ImgBB success response (`src/providers/imgbb.ts`). -/
structure ImgbbData where
  id : String
  url : String
  url_viewer : Option String
  delete_url : Option String
  title : Option String
  size : Option Nat
  width : Option Nat
  height : Option Nat
deriving DecidableEq, Repr

/-- An ImgBB response; `errorMessage` stands for the source's
`json.error?.message` (only the message of the error object is read). -/
structure ImgbbResponse where
  success : Bool
  data : Option ImgbbData
  errorMessage : Option String
deriving DecidableEq, Repr

/-- Response handling of `ImgBBProvider.upload`:
`if (!json.success || !json.data)` raise API_ERROR, else build the result with
name `data.title || filename || "image"`. -/
def imgbbParse (resp : ImgbbResponse) (filename : Option String) :
    Except UploadError UploadResultModel :=
  match resp.data, resp.success with
  | some data, true =>
    let name := jsOrStr data.title (jsOrStr filename "image")
    .ok ⟨data.id, data.url, data.url_viewer, data.delete_url, data.size,
      data.width, data.height, createFormattedOutput data.url name⟩
  | _, _ =>
    .error ⟨jsOrStr resp.errorMessage "Upload failed", ErrorCategory.API_ERROR, false⟩

/-- The `data` object of an Imgur success response (`src/providers/imgur.ts`). -/
structure ImgurData where
  id : String
  link : String
  deletehash : Option String
  title : Option String
  size : Option Nat
  width : Option Nat
  height : Option Nat
deriving DecidableEq, Repr

/-- An Imgur response. -/
structure ImgurResponse where
  success : Bool
  data : Option ImgurData
  status : Nat
deriving DecidableEq, Repr

/-- Response handling of `ImgurProvider.upload`: failures raise API_ERROR with
the numeric status; on success the delete URL is derived from `deletehash`
(when truthy) and the viewer URL from the id. -/
def imgurParse (resp : ImgurResponse) (filename : Option String) :
    Except UploadError UploadResultModel :=
  match resp.data, resp.success with
  | some data, true =>
    let name := jsOrStr data.title (jsOrStr filename "image")
    let deleteUrl :=
      if jsTruthy data.deletehash then
        some ("https://imgur.com/delete/" ++ data.deletehash.getD "")
      else none
    .ok ⟨data.id, data.link, some ("https://imgur.com/" ++ data.id), deleteUrl,
      data.size, data.width, data.height, createFormattedOutput data.link name⟩
  | _, _ =>
    .error ⟨"Upload failed with status " ++ toString resp.status,
      ErrorCategory.API_ERROR, false⟩

/-- The `image` object of a Freeimage success response
(`src/providers/freeimage.ts`). -/
structure FreeimageImage where
  name : String
  extension : String
  size : Nat
  width : Nat
  height : Nat
  url : String
  url_viewer : String
  delete_url : Option String
deriving DecidableEq, Repr

/-- A Freeimage response; `errorMessage` stands for `json.error?.message`
(the unused `success` object of the source type is omitted). -/
structure FreeimageResponse where
  status_code : Nat
  errorMessage : Option String
  image : Option FreeimageImage
deriving DecidableEq, Repr

/-- Response handling of `FreeimageProvider.upload`:
`if (json.status_code !== 200 || !json.image)` raise API_ERROR, else build the
result with name `filename || image.name || "image"`. -/
def freeimageParse (resp : FreeimageResponse) (filename : Option String) :
    Except UploadError UploadResultModel :=
  match resp.image with
  | some image =>
    if resp.status_code = 200 then
      let name := jsOrStr filename (jsOrStr (some image.name) "image")
      .ok ⟨image.name, image.url, some image.url_viewer, image.delete_url,
        some image.size, some image.width, some image.height,
        createFormattedOutput image.url name⟩
    else
      .error ⟨jsOrStr resp.errorMessage "Upload failed", ErrorCategory.API_ERROR, false⟩
  | none =>
    .error ⟨jsOrStr resp.errorMessage "Upload failed", ErrorCategory.API_ERROR, false⟩

/-- The `data` object of an ImgHippo success response
(`src/providers/imghippo.ts`). -/
structure ImghippoData where
  id : String
  url : String
  view_url : Option String
  delete_url : Option String
  title : Option String
  width : Option Nat
  height : Option Nat
  size : Option Nat
deriving DecidableEq, Repr

/-- An ImgHippo response. -/
structure ImghippoResponse where
  success : Bool
  status : Nat
  message : Option String
  data : Option ImghippoData
deriving DecidableEq, Repr

/-- Response handling of `ImgHippoProvider.upload`:
`if (!json.success || !json.data)` raise API_ERROR with the provider message,
else build the result with name `data.title || filename || "image"`. -/
def imghippoParse (resp : ImghippoResponse) (filename : Option String) :
    Except UploadError UploadResultModel :=
  match resp.data, resp.success with
  | some data, true =>
    let name := jsOrStr data.title (jsOrStr filename "image")
    .ok ⟨data.id, data.url, data.view_url, data.delete_url, data.size,
      data.width, data.height, createFormattedOutput data.url name⟩
  | _, _ =>
    .error ⟨jsOrStr resp.message "Upload failed", ErrorCategory.API_ERROR, false⟩

/-! ## Weibo adapter (`src/providers/weibo.ts`) -/

/-- `IMAGE_HOSTS` from `src/providers/weibo.ts`. -/
def IMAGE_HOSTS : List String :=
  ["tvax1.sinaimg.cn", "tvax2.sinaimg.cn", "tvax3.sinaimg.cn", "tvax4.sinaimg.cn",
    "tva1.sinaimg.cn", "tva2.sinaimg.cn", "tva3.sinaimg.cn", "tva4.sinaimg.cn"]

/-- `WeiboProvider.getExtension` (`src/providers/weibo.ts`). -/
def weiboGetExtension (mimeType : Option String) : String :=
  match mimeType with
  | some "image/jpeg" => ".jpg"
  | some "image/png" => ".png"
  | some "image/apng" => ".png"
  | some "image/gif" => ".gif"
  | _ => ".jpg"

/-- JavaScript `haystack.includes(needle)` on character lists: some suffix of
the haystack starts with the needle. -/
def jsIncludes (needle : List Char) : List Char → Bool
  | [] => needle.isPrefixOf ([] : List Char)
  | c :: rest => needle.isPrefixOf (c :: rest) || jsIncludes needle rest

/-- Does the regex `<pid>([^<]+)<\/pid>` match at the start of `l`? If so,
return the capture. The capture `[^<]+` is necessarily the maximal run of
non-`<` characters after the opening tag (shorter captures cannot be followed
by the literal `<` of the closing tag), so no backtracking is lost. -/
def pidMatchAt (l : List Char) : Option (List Char) :=
  if "<pid>".toList.isPrefixOf l then
    let rest := l.drop 5
    let cap := rest.takeWhile (fun c => c ≠ '<')
    if cap ≠ [] ∧ "</pid>".toList.isPrefixOf (rest.dropWhile (fun c => c ≠ '<')) then
      some cap
    else none
  else none

/-- First match of `text.match(/<pid>([^<]+)<\/pid>/)`: scan left to right for
the first position where the pattern matches, as the regex engine does. -/
def findPid : List Char → Option (List Char)
  | [] => none
  | c :: rest =>
    match pidMatchAt (c :: rest) with
    | some cap => some cap
    | none => findPid rest

/-- Response handling of `WeiboProvider.upload`. With no `<pid>` capture, a
body containing `login` or `请登录` raises AUTH_FAILURE with `fatal = true`
(the source passes `true`); any other body raises a non-fatal
INVALID_RESPONSE. With a capture, the image URL is assembled from a CDN host
picked by `Math.floor(Math.random() * IMAGE_HOSTS.length)`; the random draw is
modelled as the explicit argument `hostIdx` reduced modulo the host count. -/
def weiboParse (text : String) (filename : Option String)
    (mimeType : Option String) (hostIdx : Nat) :
    Except UploadError UploadResultModel :=
  match findPid text.toList with
  | none =>
    if jsIncludes "login".toList text.toList || jsIncludes "请登录".toList text.toList then
      .error ⟨"Weibo session expired. Please update your cookies.",
        ErrorCategory.AUTH_FAILURE, true⟩
    else
      .error ⟨"Failed to parse Weibo response - no PID found",
        ErrorCategory.INVALID_RESPONSE, false⟩
  | some pidChars =>
    let pid := String.mk pidChars
    let host := IMAGE_HOSTS.getD (hostIdx % IMAGE_HOSTS.length) ""
    let ext := weiboGetExtension mimeType
    let imageUrl := "https://" ++ host ++ "/large/" ++ pid ++ ext
    let name := jsOrStr filename pid
    .ok ⟨pid, imageUrl, none, none, none, none, none,
      createFormattedOutput imageUrl name⟩

/-- The `catch`-block wrapper shared by all six adapters: a non-`UploadError`
exception is wrapped as `new UploadError(error.message || "Upload to X
failed", NETWORK_ERROR, false, error)`. -/
def adapterNetworkError (message fallback : String) : UploadError :=
  ⟨jsOrStr (some message) fallback, ErrorCategory.NETWORK_ERROR, false⟩

/-! ## Configuration (`src/config/index.ts`) -/

/-- `SkillConfig`: the selected provider name, the request timeout, and the
per-provider configuration bags, modelled as an association list from provider
name to its key/value entries (an entry list stands for the keys of the
provider's config object). -/
structure SkillConfig where
  provider : String
  timeout : Nat
  providers : List (String × List (String × String))
deriving DecidableEq, Repr

/-- `getProviderConfig` from `src/config/index.ts`: index the providers bag by
name (`undefined` when absent). -/
def getProviderConfig (config : SkillConfig) (providerName : String) :
    Option (List (String × String)) :=
  config.providers.lookup providerName

/-- `getRecommendedProvider` from `src/config/index.ts`: a lowercased
configured provider of `catbox` always wins; any other configured provider is
used only when its config bag exists and has at least one key
(`Object.keys(providerConfig).length > 0`); otherwise fall back to catbox. -/
def getRecommendedProvider (config : SkillConfig) : String :=
  let explicitProvider := jsToLower config.provider
  if explicitProvider = "catbox" then "catbox"
  else
    match getProviderConfig config explicitProvider with
    | some entries => if 0 < entries.length then explicitProvider else "catbox"
    | none => "catbox"

/-! ## Upload pipeline (`src/upload.ts`) -/

/-- `UploadOptions` from `src/upload.ts`. -/
structure UploadOptions where
  provider : Option String
  name : Option String
deriving DecidableEq, Repr

/-- The provider-name resolution of `uploadImage`:
`options.provider || getRecommendedProvider(config)` — JavaScript `||`, so an
absent or empty-string option falls back to the recommended provider. -/
def resolveProviderName (options : UploadOptions) (config : SkillConfig) : String :=
  jsOrStr options.provider (getRecommendedProvider config)

/-- `purifier` from `src/upload.ts`: reject a MIME type that is empty
(`!mimeType`, JavaScript falsiness) or not in the supported list, then reject
a byte length above the size cap. -/
def purifier (bufferLen : Nat) (mimeType : String) (maxSize : Nat)
    (supportedTypes : List String) (providerName : String) :
    Except UploadError Unit :=
  if mimeType = "" ∨ supportedTypes.contains mimeType = false then
    .error (fileTypeError mimeType supportedTypes providerName)
  else if maxSize < bufferLen then
    .error (fileSizeError bufferLen maxSize providerName)
  else .ok ()

/-- An adapter as the pipeline sees it: the declared constraints plus the
`upload` method (which is where any network call happens — the transport is
reached only through it). -/
structure PipelineProvider where
  displayName : String
  maxFileSize : Nat
  supportedTypes : List String
  upload : List Nat → String → String → Except UploadError UploadResultModel

/-- Steps 2–4 of `uploadImage` from `src/upload.ts`, for an already
constructed provider and an already read file buffer: sniff the MIME type,
run `purifier` against the provider's constraints, then delegate to
`provider.upload` with filename `options.name || basename` (the source
derives `basename` from the image path). The boolean records whether
`provider.upload` was invoked. -/
def uploadWithProvider (provider : PipelineProvider) (buffer : List Nat)
    (nameOpt : Option String) (basename : String) :
    Except UploadError UploadResultModel × Bool :=
  let mimeType := detectMimeType buffer
  match purifier buffer.length mimeType provider.maxFileSize
      provider.supportedTypes provider.displayName with
  | .error e => (.error e, false)
  | .ok _ =>
    let filename := jsOrStr nameOpt basename
    (provider.upload buffer filename mimeType, true)

/-- The `Path is not a file` error of `reader` in `src/upload.ts` (the
filesystem interaction itself is I/O and is not modelled). -/
def readerNotFileError (filePath : String) : UploadError :=
  ⟨"Path is not a file: " ++ filePath, ErrorCategory.FILE_NOT_FOUND, false⟩

/-- The `ENOENT` error of `reader` in `src/upload.ts`. -/
def readerNotFoundError (filePath : String) : UploadError :=
  ⟨"File not found: " ++ filePath, ErrorCategory.FILE_NOT_FOUND, false⟩

/-- The generic read-failure error of `reader` in `src/upload.ts`. -/
def readerFailedError (message : String) : UploadError :=
  ⟨"Failed to read file: " ++ message, ErrorCategory.FILE_NOT_FOUND, false⟩

/-! ## Unfolding lemmas for `fetchWithRetry` -/

/-- A 2xx response is returned at once, whatever the remaining budget. -/
theorem fetch_response_ok (oc : Nat → FetchOutcome) (t i r s : Nat) (txt : String)
    (hoc : oc i = .response s txt) (h1 : 200 ≤ s) (h2 : s ≤ 299) :
    fetchWithRetry oc t i r = ⟨.ok (s, txt), 1, []⟩ := by
  cases r <;>
    (rw [fetchWithRetry.eq_def]; dsimp only; rw [hoc]; dsimp only; rw [if_pos ⟨h1, h2⟩])

/-- A non-2xx response with no budget left raises NETWORK_ERROR with the
HTTP status line. -/
theorem fetch_response_bad_zero (oc : Nat → FetchOutcome) (t i s : Nat) (txt : String)
    (hoc : oc i = .response s txt) (hbad : ¬(200 ≤ s ∧ s ≤ 299)) :
    fetchWithRetry oc t i 0 =
      ⟨.error ⟨"HTTP " ++ toString s ++ ": " ++ txt, ErrorCategory.NETWORK_ERROR, false⟩,
        1, []⟩ := by
  rw [fetchWithRetry.eq_def]
  dsimp only
  rw [hoc]
  dsimp only
  rw [if_neg hbad]

/-- A non-2xx response with budget left sleeps 1000 ms and recurses with one
retry consumed — for 5xx via `shouldRetry`, for 4xx via the function's own
`catch` of its thrown non-fatal error. -/
theorem fetch_response_bad_succ (oc : Nat → FetchOutcome) (t i r s : Nat) (txt : String)
    (hoc : oc i = .response s txt) (hbad : ¬(200 ≤ s ∧ s ≤ 299)) :
    fetchWithRetry oc t i (r + 1) = retryStep (fetchWithRetry oc t (i + 1) r) := by
  rw [fetchWithRetry.eq_def]
  dsimp only
  rw [hoc]
  dsimp only
  rw [if_neg hbad, ite_self]

/-- A timeout with no budget left raises NETWORK_ERROR. -/
theorem fetch_abort_zero (oc : Nat → FetchOutcome) (t i : Nat) (hoc : oc i = .abort) :
    fetchWithRetry oc t i 0 =
      ⟨.error ⟨"Request timed out after " ++ toString t ++ "ms",
          ErrorCategory.NETWORK_ERROR, false⟩, 1, []⟩ := by
  rw [fetchWithRetry.eq_def]
  dsimp only
  rw [hoc]

/-- A timeout with budget left retries. -/
theorem fetch_abort_succ (oc : Nat → FetchOutcome) (t i r : Nat) (hoc : oc i = .abort) :
    fetchWithRetry oc t i (r + 1) = retryStep (fetchWithRetry oc t (i + 1) r) := by
  rw [fetchWithRetry.eq_def]
  dsimp only
  rw [hoc]

/-- A network fault with no budget left raises NETWORK_ERROR wrapping the
fault message. -/
theorem fetch_fault_zero (oc : Nat → FetchOutcome) (t i : Nat) (m : String)
    (hoc : oc i = .fault m) :
    fetchWithRetry oc t i 0 =
      ⟨.error ⟨jsOrStr (some m) "Network request failed",
          ErrorCategory.NETWORK_ERROR, false⟩, 1, []⟩ := by
  rw [fetchWithRetry.eq_def]
  dsimp only
  rw [hoc]

/-- A network fault with budget left retries. -/
theorem fetch_fault_succ (oc : Nat → FetchOutcome) (t i r : Nat) (m : String)
    (hoc : oc i = .fault m) :
    fetchWithRetry oc t i (r + 1) = retryStep (fetchWithRetry oc t (i + 1) r) := by
  rw [fetchWithRetry.eq_def]
  dsimp only
  rw [hoc]

/-- On an all-5xx transport every level of the recursion consumes one retry,
so budget `n` yields `n + 1` fetch calls, `n` sleeps of 1000 ms, and a final
NETWORK_ERROR. -/
theorem fetch_all5xx (oc : Nat → FetchOutcome) (t : Nat)
    (h5 : ∀ i, ∃ s txt, oc i = .response s txt ∧ 500 ≤ s ∧ s ≤ 599) :
    ∀ n i, ∃ msg, fetchWithRetry oc t i n =
      ⟨.error ⟨msg, ErrorCategory.NETWORK_ERROR, false⟩, n + 1, List.replicate n 1000⟩ := by
  intro n
  induction n with
  | zero =>
    intro i
    obtain ⟨s, txt, hoc, h500, h599⟩ := h5 i
    exact ⟨"HTTP " ++ toString s ++ ": " ++ txt,
      fetch_response_bad_zero oc t i s txt hoc (by omega)⟩
  | succ n ih =>
    intro i
    obtain ⟨msg, hrec⟩ := ih (i + 1)
    obtain ⟨s, txt, hoc, h500, h599⟩ := h5 i
    refine ⟨msg, ?_⟩
    rw [fetch_response_bad_succ oc t i n s txt hoc (by omega), hrec]
    simp [retryStep, List.replicate_succ]

/-- C1: the claim says a 4xx response surfaces as NETWORK_ERROR immediately
with zero retries; the code instead catches its own thrown non-fatal error
and retries. Evaluated at the failing input — a transport answering 404 on
every attempt with a budget of 2 — `fetchWithRetry` performs 3 fetch calls
(2 retries) and 2 sleeps of 1000 ms before raising NETWORK_ERROR with the
HTTP status line. -/
theorem fetch_404_retried_despite_spec :
    fetchWithRetryRun const404 30000 2 =
      ⟨.error ⟨"HTTP 404: Not Found", ErrorCategory.NETWORK_ERROR, false⟩, 3, [1000, 1000]⟩
    ∧ (fetchWithRetryRun const404 30000 2).fetchCalls = 3 := by
  constructor <;> decide

/-- C2: on a transport whose every attempt yields a 5xx response, a budget of
`maxRetries` yields exactly `maxRetries` retries (`maxRetries + 1` fetch
calls) with a fixed 1000 ms sleep between attempts, then NETWORK_ERROR; any
attempt reached with a 2xx response is returned at once; a 500 followed by a
200 with budget at least 1 returns the 200 after exactly one retry. -/
theorem fetch_5xx_exhausts_2xx_returns (oc : Nat → FetchOutcome) (t n : Nat) :
    ((∀ i, ∃ s txt, oc i = .response s txt ∧ 500 ≤ s ∧ s ≤ 599) →
      ∃ msg, fetchWithRetryRun oc t n =
        ⟨.error ⟨msg, ErrorCategory.NETWORK_ERROR, false⟩, n + 1, List.replicate n 1000⟩)
    ∧ (∀ s txt, oc 0 = .response s txt → 200 ≤ s → s ≤ 299 →
        fetchWithRetryRun oc t n = ⟨.ok (s, txt), 1, []⟩)
    ∧ (∀ s5 txt5 s2 txt2 m, n = m + 1 →
        oc 0 = .response s5 txt5 → 500 ≤ s5 →
        oc 1 = .response s2 txt2 → 200 ≤ s2 → s2 ≤ 299 →
        fetchWithRetryRun oc t n = ⟨.ok (s2, txt2), 2, [1000]⟩) := by
  refine ⟨fun h5 => fetch_all5xx oc t h5 n 0, ?_, ?_⟩
  · intro s txt hoc h1 h2
    exact fetch_response_ok oc t 0 n s txt hoc h1 h2
  · intro s5 txt5 s2 txt2 m hn hoc5 h500 hoc2 h1 h2
    subst hn
    unfold fetchWithRetryRun
    rw [fetch_response_bad_succ oc t 0 m s5 txt5 hoc5 (by omega),
      fetch_response_ok oc t 1 m s2 txt2 hoc2 h1 h2]
    rfl

/-- Witness for C2: a constant-500 transport with budget 2 makes 3 fetch
calls and 2 sleeps then fails with NETWORK_ERROR; a 500-then-200 transport
with budget 2 returns the 200 after one retry. -/
theorem fetch_5xx_exhausts_2xx_returns_witness :
    (∃ msg, fetchWithRetryRun const500 30000 2 =
      ⟨.error ⟨msg, ErrorCategory.NETWORK_ERROR, false⟩, 3, List.replicate 2 1000⟩)
    ∧ fetchWithRetryRun oc500then200 30000 2 = ⟨.ok (200, "OK"), 2, [1000]⟩ :=
  ⟨(fetch_5xx_exhausts_2xx_returns const500 30000 2).1
      (fun _ => ⟨500, "Server Error", rfl, by decide, by decide⟩),
    (fetch_5xx_exhausts_2xx_returns oc500then200 30000 2).2.2 500 "Server Error" 200 "OK" 1
      rfl rfl (by decide) rfl (by decide) (by decide)⟩

/-- C8: the formatted strings are a pure function of `(url, name)` — URL
verbatim, Markdown image tag, HTML img tag, BBCode IMG tag — and on
`(url = "https://x/y.png", name = "pic")` the published round-trip values
come out. -/
theorem formatted_output_pure :
    (∀ url name, createFormattedOutput url name =
      ⟨url, "![" ++ name ++ "](" ++ url ++ ")",
        "<img src=\"" ++ url ++ "\" alt=\"" ++ name ++ "\">",
        "[IMG]" ++ url ++ "[/IMG]"⟩)
    ∧ createFormattedOutput "https://x/y.png" "pic" =
        ⟨"https://x/y.png", "![pic](https://x/y.png)",
          "<img src=\"https://x/y.png\" alt=\"pic\">",
          "[IMG]https://x/y.png[/IMG]"⟩ :=
  ⟨fun _ _ => rfl, by decide⟩

/-- C9: the registry holds exactly the six provider names; an unknown name
(no registry entry for its lowercasing) raises CONFIG_ERROR with
`fatal = true` and a message enumerating all six names; and lookup depends
on the name only through its lowercasing, so case variants of a name resolve
to the same constructor. -/
theorem create_provider_unknown_and_case_insensitive :
    getAvailableProviders = ["catbox", "imgbb", "imgur", "freeimage", "imghippo", "weibo"]
    ∧ String.intercalate ", " getAvailableProviders =
        "catbox, imgbb, imgur, freeimage, imghippo, weibo"
    ∧ (∀ (name : String) (cfg : ProviderConfig),
        resolveConstructor name = none →
        createProvider name cfg =
          .error ⟨"Unknown provider: " ++ name ++ ". Available providers: " ++
              String.intercalate ", " getAvailableProviders,
            ErrorCategory.CONFIG_ERROR, true⟩)
    ∧ (∀ n1 n2 : String, jsToLower n1 = jsToLower n2 →
        resolveConstructor n1 = resolveConstructor n2) := by
  refine ⟨by decide, by decide, ?_, ?_⟩
  · intro name cfg h
    unfold createProvider
    rw [h]
  · intro n1 n2 h
    unfold resolveConstructor
    rw [h]

/-- Witness for C9: the unknown name `notaprovider` raises the fatal
CONFIG_ERROR listing the six names, and `CATBOX` resolves like `catbox`. -/
theorem create_provider_unknown_witness :
    createProvider "notaprovider" ⟨none, none, none, none⟩ =
      .error ⟨"Unknown provider: notaprovider. Available providers: catbox, imgbb, imgur, freeimage, imghippo, weibo",
        ErrorCategory.CONFIG_ERROR, true⟩
    ∧ resolveConstructor "CATBOX" = resolveConstructor "catbox" := by
  constructor
  · rw [create_provider_unknown_and_case_insensitive.2.2.1 "notaprovider"
      ⟨none, none, none, none⟩ (by decide)]
    decide
  · exact create_provider_unknown_and_case_insensitive.2.2.2 "CATBOX" "catbox" (by decide)

/-- C6 counterexample: the registry listing table reports `maxFileSize`
20971520 (20 MiB) for weibo while the weibo adapter declares 20971519
(`20 * 1024 * 1024 - 1`), so the table does not report the same
`maxFileSize` as the adapter. -/
theorem registry_weibo_size_mismatch :
    (getProviderInfo.find? (fun info => info.name == "weibo")).map ProviderInfo.maxFileSize =
      some (20 * 1024 * 1024)
    ∧ weiboMeta.maxFileSize = 20 * 1024 * 1024 - 1
    ∧ (getProviderInfo.find? (fun info => info.name == "weibo")).map ProviderInfo.maxFileSize ≠
        some weiboMeta.maxFileSize := by
  refine ⟨by decide, by decide, by decide⟩

/-- C6 as amended: for catbox, imgbb, imgur, freeimage and imghippo the
registry listing table reports exactly the adapter's declared displayName,
requiresConfig and maxFileSize; for weibo it reports the adapter's
displayName and requiresConfig but a maxFileSize one byte larger than the
adapter's declared value. -/
theorem registry_metadata_lockstep_except_weibo_size :
    getProviderInfo.find? (fun info => info.name == catboxMeta.name) =
      some ⟨catboxMeta.name, catboxMeta.displayName, catboxMeta.requiresConfig,
        catboxMeta.maxFileSize⟩
    ∧ getProviderInfo.find? (fun info => info.name == imgbbMeta.name) =
      some ⟨imgbbMeta.name, imgbbMeta.displayName, imgbbMeta.requiresConfig,
        imgbbMeta.maxFileSize⟩
    ∧ getProviderInfo.find? (fun info => info.name == imgurMeta.name) =
      some ⟨imgurMeta.name, imgurMeta.displayName, imgurMeta.requiresConfig,
        imgurMeta.maxFileSize⟩
    ∧ getProviderInfo.find? (fun info => info.name == freeimageMeta.name) =
      some ⟨freeimageMeta.name, freeimageMeta.displayName, freeimageMeta.requiresConfig,
        freeimageMeta.maxFileSize⟩
    ∧ getProviderInfo.find? (fun info => info.name == imghippoMeta.name) =
      some ⟨imghippoMeta.name, imghippoMeta.displayName, imghippoMeta.requiresConfig,
        imghippoMeta.maxFileSize⟩
    ∧ getProviderInfo.find? (fun info => info.name == weiboMeta.name) =
      some ⟨weiboMeta.name, weiboMeta.displayName, weiboMeta.requiresConfig,
        weiboMeta.maxFileSize + 1⟩ := by
  refine ⟨by decide, by decide, by decide, by decide, by decide, by decide⟩

/-- C7 counterexample: a Weibo body with no `<pid>` tag containing `login`
raises AUTH_FAILURE with `fatal = true` — not non-fatal as claimed (the
source passes `true` to the constructor). -/
theorem weibo_auth_failure_is_fatal_cex :
    weiboParse "please login" none none 0 =
      .error ⟨"Weibo session expired. Please update your cookies.",
        ErrorCategory.AUTH_FAILURE, true⟩ := by
  decide

/-- C7 as amended: for a Weibo body with no `<pid>` capture, a `login` /
`请登录` substring raises AUTH_FAILURE with `fatal = true`; any other body
raises a non-fatal INVALID_RESPONSE. -/
theorem weibo_no_pid_classification (text : String) (filename mimeType : Option String)
    (hostIdx : Nat) (hnopid : findPid text.toList = none) :
    ((jsIncludes "login".toList text.toList || jsIncludes "请登录".toList text.toList) = true →
      weiboParse text filename mimeType hostIdx =
        .error ⟨"Weibo session expired. Please update your cookies.",
          ErrorCategory.AUTH_FAILURE, true⟩)
    ∧ ((jsIncludes "login".toList text.toList || jsIncludes "请登录".toList text.toList) = false →
      weiboParse text filename mimeType hostIdx =
        .error ⟨"Failed to parse Weibo response - no PID found",
          ErrorCategory.INVALID_RESPONSE, false⟩) := by
  unfold weiboParse
  rw [hnopid]
  constructor
  · intro h
    rw [if_pos h]
  · intro h
    have hneg : ¬((jsIncludes "login".toList text.toList ||
        jsIncludes "请登录".toList text.toList) = true) := by
      intro hc
      rw [hc] at h
      exact Bool.noConfusion h
    rw [if_neg hneg]

/-- Witness for C7: a no-pid body with `login` inside yields the fatal
AUTH_FAILURE; a no-pid body without it yields the non-fatal
INVALID_RESPONSE. -/
theorem weibo_no_pid_classification_witness :
    weiboParse "abc login" none none 0 =
      .error ⟨"Weibo session expired. Please update your cookies.",
        ErrorCategory.AUTH_FAILURE, true⟩
    ∧ weiboParse "<ok/>" none none 0 =
      .error ⟨"Failed to parse Weibo response - no PID found",
        ErrorCategory.INVALID_RESPONSE, false⟩ :=
  ⟨(weibo_no_pid_classification "abc login" none none 0 (by decide)).1 (by decide),
    (weibo_no_pid_classification "<ok/>" none none 0 (by decide)).2 (by decide)⟩

/-- A configuration whose configured default provider is `imgur` with no
imgur entries (only an empty catbox bag, as `loadConfig` always creates). -/
def configImgurNoKey : SkillConfig := ⟨"imgur", 30000, [("catbox", [])]⟩

/-- C10 counterexample: the claim says an explicitly passed provider name is
never substituted, but an explicitly passed empty-string provider option is
falsy for the `options.provider || getRecommendedProvider(config)` test and
is substituted by the catbox fallback. -/
theorem empty_provider_option_substituted :
    resolveProviderName ⟨some "", none⟩ configImgurNoKey = "catbox"
    ∧ resolveProviderName ⟨some "", none⟩ configImgurNoKey ≠ "" := by
  refine ⟨by decide, by decide⟩

/-- C10 as amended: with no provider option, a configured default whose
lowercasing is not `catbox` and whose config bag is absent or empty is
silently replaced by `catbox` — whose construction always succeeds, so no
CONFIG_ERROR is raised for the missing default-provider config; and an
explicitly passed non-empty provider name is never substituted. -/
theorem provider_fallback_and_explicit_kept :
    (∀ (config : SkillConfig) (nameOpt : Option String),
      jsToLower config.provider ≠ "catbox" →
      (getProviderConfig config (jsToLower config.provider) = none ∨
        getProviderConfig config (jsToLower config.provider) = some []) →
      resolveProviderName ⟨none, nameOpt⟩ config = "catbox")
    ∧ (∀ cfg : ProviderConfig, ∃ inst, createProvider "catbox" cfg = .ok inst)
    ∧ (∀ (s : String) (nameOpt : Option String) (config : SkillConfig),
        s ≠ "" → resolveProviderName ⟨some s, nameOpt⟩ config = s) := by
  refine ⟨?_, ?_, ?_⟩
  · intro config nameOpt hnc hempty
    unfold resolveProviderName jsOrStr getRecommendedProvider
    dsimp only
    rw [if_neg hnc]
    rcases hempty with h | h <;> rw [h]
    rfl
  · intro cfg
    exact ⟨⟨catboxMeta, none, none, cfg.userHash, none⟩, rfl⟩
  · intro s nameOpt config hs
    unfold resolveProviderName jsOrStr
    dsimp only
    rw [if_neg hs]

/-- Witness for C10: default provider `imgur` with no imgur config falls
back to catbox; an explicit `weibo` option is kept. -/
theorem provider_fallback_witness :
    resolveProviderName ⟨none, none⟩ configImgurNoKey = "catbox"
    ∧ resolveProviderName ⟨some "weibo", none⟩ configImgurNoKey = "weibo" :=
  ⟨provider_fallback_and_explicit_kept.1 configImgurNoKey none (by decide) (Or.inl (by decide)),
    provider_fallback_and_explicit_kept.2.2 "weibo" none configImgurNoKey (by decide)⟩

/-- A provider stub for exercising the pipeline: tiny size cap, PNG only;
its `upload` is never reached in the failing cases. -/
def stubProvider : PipelineProvider :=
  ⟨"Stub", 5, ["image/png"],
    fun _ _ _ => .error ⟨"unreachable", ErrorCategory.API_ERROR, false⟩⟩

/-- C3: when the sniffed MIME type is empty or not in the provider's
supported list, or the byte length exceeds the provider's cap, the pipeline
raises the corresponding validation error — FILE_TYPE_RESTRICT for a type
failure (which is checked first), FILE_SIZE_OVERFLOW for a pure size
failure — and `provider.upload` (the only path to the transport) is never
invoked. -/
theorem validation_before_network (provider : PipelineProvider) (buffer : List Nat)
    (nameOpt : Option String) (basename : String)
    (hbad : (detectMimeType buffer = "" ∨
        provider.supportedTypes.contains (detectMimeType buffer) = false) ∨
      provider.maxFileSize < buffer.length) :
    (uploadWithProvider provider buffer nameOpt basename).2 = false
    ∧ ∃ e, (uploadWithProvider provider buffer nameOpt basename).1 = Except.error e
      ∧ ((detectMimeType buffer = "" ∨
            provider.supportedTypes.contains (detectMimeType buffer) = false) →
          e.category = ErrorCategory.FILE_TYPE_RESTRICT)
      ∧ (¬(detectMimeType buffer = "" ∨
            provider.supportedTypes.contains (detectMimeType buffer) = false) →
          e.category = ErrorCategory.FILE_SIZE_OVERFLOW) := by
  by_cases htype : detectMimeType buffer = "" ∨
      provider.supportedTypes.contains (detectMimeType buffer) = false
  · unfold uploadWithProvider purifier
    dsimp only
    rw [if_pos htype]
    exact ⟨rfl, _, rfl, fun _ => rfl, fun hc => absurd htype hc⟩
  · have hsz : provider.maxFileSize < buffer.length := hbad.resolve_left htype
    unfold uploadWithProvider purifier
    dsimp only
    rw [if_neg htype, if_pos hsz]
    exact ⟨rfl, _, rfl, fun hc => absurd hc htype, fun _ => rfl⟩

/-- Witness for C3: an 8-byte PNG signature against a provider capped at 5
bytes fails validation with FILE_SIZE_OVERFLOW and the upload method is
never invoked. -/
theorem validation_before_network_witness :
    (uploadWithProvider stubProvider pngSignature none "img").2 = false
    ∧ ∃ e, (uploadWithProvider stubProvider pngSignature none "img").1 = Except.error e
      ∧ e.category = ErrorCategory.FILE_SIZE_OVERFLOW := by
  obtain ⟨h1, e, h2, -, h4⟩ :=
    validation_before_network stubProvider pngSignature none "img" (Or.inr (by decide))
  exact ⟨h1, e, h2, h4 (by decide)⟩

/-! ## Fatality invariant -/

/-- The fatal flag of an error agrees with its category being CONFIG_ERROR
or AUTH_FAILURE. -/
def fatalMatchesCategory (e : UploadError) : Bool :=
  e.fatal == (e.category == ErrorCategory.CONFIG_ERROR ||
    e.category == ErrorCategory.AUTH_FAILURE)

/-- Lift `fatalMatchesCategory` over a fallible result: successes are fine,
failures must satisfy the invariant. -/
def exceptFatalOk {α : Type} : Except UploadError α → Bool
  | .error e => fatalMatchesCategory e
  | .ok _ => true

/-- Every retry budget and transport keeps the transport's errors non-fatal
NETWORK_ERROR, satisfying the fatality invariant. -/
theorem fetch_fatal_ok (oc : Nat → FetchOutcome) (t : Nat) :
    ∀ r i, exceptFatalOk (fetchWithRetry oc t i r).result = true := by
  intro r
  induction r with
  | zero =>
    intro i
    cases hoc : oc i with
    | response s txt =>
      by_cases hok : 200 ≤ s ∧ s ≤ 299
      · rw [fetch_response_ok oc t i 0 s txt hoc hok.1 hok.2]
        rfl
      · rw [fetch_response_bad_zero oc t i s txt hoc hok]
        rfl
    | abort =>
      rw [fetch_abort_zero oc t i hoc]
      rfl
    | fault m =>
      rw [fetch_fault_zero oc t i m hoc]
      rfl
  | succ r ih =>
    intro i
    cases hoc : oc i with
    | response s txt =>
      by_cases hok : 200 ≤ s ∧ s ≤ 299
      · rw [fetch_response_ok oc t i (r + 1) s txt hoc hok.1 hok.2]
        rfl
      · rw [fetch_response_bad_succ oc t i r s txt hoc hok]
        exact ih (i + 1)
    | abort =>
      rw [fetch_abort_succ oc t i r hoc]
      exact ih (i + 1)
    | fault m =>
      rw [fetch_fault_succ oc t i r m hoc]
      exact ih (i + 1)

/-- C5: every error any embedded operation of the system can raise has
`fatal = true` exactly when its category is CONFIG_ERROR or AUTH_FAILURE:
the four error constructors, the reader's errors, the adapters' catch-block
wrapper, the transport, the pipeline validator, provider construction, and
the response handling of all six adapters. -/
theorem fatal_iff_config_or_auth :
    (∀ a m p, fatalMatchesCategory (fileSizeError a m p) = true)
    ∧ (∀ mt ts p, fatalMatchesCategory (fileTypeError mt ts p) = true)
    ∧ (∀ p d, fatalMatchesCategory (authError p d) = true)
    ∧ (∀ p m, fatalMatchesCategory (configError p m) = true)
    ∧ (∀ fp, fatalMatchesCategory (readerNotFileError fp) = true)
    ∧ (∀ fp, fatalMatchesCategory (readerNotFoundError fp) = true)
    ∧ (∀ m, fatalMatchesCategory (readerFailedError m) = true)
    ∧ (∀ m f, fatalMatchesCategory (adapterNetworkError m f) = true)
    ∧ (∀ oc t i r, exceptFatalOk (fetchWithRetry oc t i r).result = true)
    ∧ (∀ len mt mx ts p, exceptFatalOk (purifier len mt mx ts p) = true)
    ∧ (∀ name cfg, exceptFatalOk (createProvider name cfg) = true)
    ∧ (∀ text fn, exceptFatalOk (catboxParse text fn) = true)
    ∧ (∀ resp fn, exceptFatalOk (imgbbParse resp fn) = true)
    ∧ (∀ resp fn, exceptFatalOk (imgurParse resp fn) = true)
    ∧ (∀ resp fn, exceptFatalOk (freeimageParse resp fn) = true)
    ∧ (∀ resp fn, exceptFatalOk (imghippoParse resp fn) = true)
    ∧ (∀ text fn mt hi, exceptFatalOk (weiboParse text fn mt hi) = true) := by
  refine ⟨fun a m p => rfl, fun mt ts p => rfl, ?_, fun p m => rfl,
    fun fp => rfl, fun fp => rfl, fun m => rfl, fun m f => rfl,
    fun oc t i r => fetch_fatal_ok oc t r i, ?_, ?_, ?_, ?_, ?_, ?_, ?_, ?_⟩
  · intro p d
    cases d <;> rfl
  · intro len mt mx ts p
    unfold purifier
    split
    · rfl
    · split <;> rfl
  · intro name cfg
    unfold createProvider
    cases resolveConstructor name with
    | none => rfl
    | some key =>
      cases key <;>
        simp only [constructFor, constructCatbox, constructImgbb, constructImgur,
          constructFreeimage, constructImghippo, constructWeibo] <;>
        first
          | rfl
          | (split <;> rfl)
  · intro text fn
    unfold catboxParse
    split <;> rfl
  · intro resp fn
    unfold imgbbParse
    rcases resp.data with - | d <;> rcases hs : resp.success <;> rfl
  · intro resp fn
    unfold imgurParse
    rcases resp.data with - | d <;> rcases hs : resp.success <;> rfl
  · intro resp fn
    unfold freeimageParse
    rcases resp.image with - | im
    · rfl
    · dsimp only
      split <;> rfl
  · intro resp fn
    unfold imghippoParse
    rcases resp.data with - | d <;> rcases hs : resp.success <;> rfl
  · intro text fn mt hi
    unfold weiboParse
    cases findPid text.toList with
    | none =>
      dsimp only
      split <;> rfl
    | some pid => rfl

/-! ## Lemmas about the MIME sniffer -/

/-- `headD` is `getD` at position 0. -/
theorem headD_eq_getD_zero (l : List Nat) : l.headD 0 = l.getD 0 0 := by
  cases l <;> rfl

/-- `getD` on a tail shifts the index by one. -/
theorem tail_getD_nat (l : List Nat) (k : Nat) : l.tail.getD k 0 = l.getD (k + 1) 0 := by
  cases l <;> simp [List.getD]

/-- The matching loop succeeds exactly when every pattern position matches
under the mask, reading the buffer from offset `s`. -/
theorem matchLoop_eq_true_iff (buffer : List Nat) :
    ∀ (pat : List Nat) (s : Nat) (msk : List Nat),
      matchLoop buffer s pat msk = true ↔
        ∀ j, j < pat.length → buffer.getD (s + j) 0 &&& msk.getD j 0 = pat.getD j 0 := by
  intro pat
  induction pat with
  | nil =>
    intro s msk
    simp [matchLoop]
  | cons pb prest ih =>
    intro s msk
    rw [matchLoop]
    by_cases h0 : buffer.getD s 0 &&& msk.headD 0 = pb
    · rw [if_pos h0, ih (s + 1) msk.tail]
      constructor
      · intro h j hj
        cases j with
        | zero =>
          rw [← headD_eq_getD_zero]
          exact h0
        | succ k =>
          have hk := h k (by simpa using hj)
          rw [tail_getD_nat] at hk
          rw [List.getD_cons_succ, show s + (k + 1) = s + 1 + k from by omega]
          exact hk
      · intro h j hj
        have hk := h (j + 1) (by simpa using hj)
        rw [List.getD_cons_succ] at hk
        rw [tail_getD_nat, show s + 1 + j = s + (j + 1) from by omega]
        exact hk
    · rw [if_neg h0]
      constructor
      · intro h
        exact Bool.noConfusion h
      · intro h
        have hx : buffer.getD s 0 &&& msk.headD 0 = pb := by
          have h00 := h 0 (Nat.succ_pos _)
          rw [headD_eq_getD_zero]
          exact h00
        exact False.elim (h0 hx)

/-- With an empty `ignored` list nothing is skipped: the all-ignored prefix
is empty. -/
theorem takeWhile_contains_nil (l : List Nat) :
    l.takeWhile (fun b => ([] : List Nat).contains b) = [] := by
  cases l <;> rfl

/-- `initialBytesMatchB` unpacked into its two propositional conjuncts. -/
theorem initialBytesMatchB_iff (buffer : List Nat) (item : BitmapPatternItem) :
    initialBytesMatchB buffer item = true ↔
      item.pattern.length ≤ buffer.length ∧
        ∀ j, j < item.pattern.length →
          buffer.getD j 0 &&& item.mask.getD j 0 = item.pattern.getD j 0 := by
  unfold initialBytesMatchB
  rw [Bool.and_eq_true, List.all_eq_true]
  constructor
  · rintro ⟨h1, h2⟩
    refine ⟨of_decide_eq_true h1, fun j hj => ?_⟩
    have := h2 j (List.mem_range.mpr hj)
    exact of_decide_eq_true (by simpa using this)
  · rintro ⟨h1, h2⟩
    refine ⟨decide_eq_true h1, fun j hjmem => ?_⟩
    have hj := List.mem_range.mp hjmem
    simpa using decide_eq_true (h2 j hj)

/-- For a table entry with an empty `ignored` list, the source's
`isPatternMatch` agrees with the specification-side initial-bytes test. -/
theorem isPatternMatch_eq_initial (buffer : List Nat) (item : BitmapPatternItem)
    (hig : item.ignored = []) :
    isPatternMatch buffer item = initialBytesMatchB buffer item := by
  have hiff : isPatternMatch buffer item = true ↔ initialBytesMatchB buffer item = true := by
    unfold isPatternMatch
    rw [hig, takeWhile_contains_nil, initialBytesMatchB_iff]
    by_cases hlen : buffer.length < item.pattern.length
    · rw [if_pos hlen]
      constructor
      · intro h
        exact Bool.noConfusion h
      · rintro ⟨h1, -⟩
        exact False.elim (by omega)
    · rw [if_neg hlen]
      simp only [List.length_nil]
      rw [matchLoop_eq_true_iff]
      constructor
      · intro h
        refine ⟨by omega, fun j hj => ?_⟩
        have := h j hj
        rwa [Nat.zero_add] at this
      · rintro ⟨-, h⟩ j hj
        rw [Nat.zero_add]
        exact h j hj
  cases hb : initialBytesMatchB buffer item
  · cases ha : isPatternMatch buffer item
    · rfl
    · rw [hb] at hiff
      exact Bool.noConfusion (hiff.mp ha)
  · exact hiff.mpr hb

/-- The first table entry matched by `isPatternMatch` decides `detectAux`. -/
theorem detectAux_first (buffer : List Nat) :
    ∀ (l : List BitmapPatternItem) (i : Nat) (h : i < l.length),
      isPatternMatch buffer (l.get ⟨i, h⟩) = true →
      (∀ j (hj : j < i), isPatternMatch buffer (l.get ⟨j, Nat.lt_trans hj h⟩) = false) →
      detectAux buffer l = (l.get ⟨i, h⟩).type := by
  intro l
  induction l with
  | nil =>
    intro i h
    exact absurd h (by simp)
  | cons item rest ih =>
    intro i h hmatch hearlier
    cases i with
    | zero =>
      simp only [List.get] at hmatch ⊢
      unfold detectAux
      rw [hmatch]
      rfl
    | succ k =>
      have h0 : isPatternMatch buffer item = false := by
        have := hearlier 0 (Nat.succ_pos k)
        simpa using this
      unfold detectAux
      rw [h0]
      simp only [List.get] at hmatch ⊢
      exact ih k (Nat.lt_of_succ_lt_succ h) hmatch
        (fun j hj => by simpa using hearlier (j + 1) (Nat.succ_lt_succ hj))

/-- When no table entry matches, `detectAux` yields the unknown type. -/
theorem detectAux_unmatched (buffer : List Nat) :
    ∀ l : List BitmapPatternItem,
      (∀ item ∈ l, isPatternMatch buffer item = false) →
      detectAux buffer l = UNKNOWN_BITMAP_MIME := by
  intro l
  induction l with
  | nil =>
    intro
    rfl
  | cons item rest ih =>
    intro h
    have h0 := h item (List.mem_cons_self _ _)
    unfold detectAux
    rw [h0]
    exact ih (fun it hit => h it (List.mem_cons_of_mem _ hit))

/-- C4: for the magic-byte table — whose entries all have empty `ignored`
lists — (1) a buffer shorter than an entry's pattern never matches that
entry; (2) a buffer whose initial bytes satisfy `(byte & mask) ==
pattern_byte` for every byte of an entry's pattern is classified as that
entry's type when no earlier entry also matches (first match in table order
wins); (3) a buffer matching no entry is classified as the unknown type. -/
theorem mime_sniffer_table_matching :
    (∀ (buffer : List Nat) (i : Nat) (h : i < BITMAP_PATTERN_TABLE.length),
      buffer.length < (BITMAP_PATTERN_TABLE.get ⟨i, h⟩).pattern.length →
      isPatternMatch buffer (BITMAP_PATTERN_TABLE.get ⟨i, h⟩) = false)
    ∧ (∀ (buffer : List Nat) (i : Nat) (h : i < BITMAP_PATTERN_TABLE.length),
      initialBytesMatchB buffer (BITMAP_PATTERN_TABLE.get ⟨i, h⟩) = true →
      (∀ j (hj : j < i),
        initialBytesMatchB buffer (BITMAP_PATTERN_TABLE.get ⟨j, Nat.lt_trans hj h⟩) = false) →
      detectMimeType buffer = (BITMAP_PATTERN_TABLE.get ⟨i, h⟩).type)
    ∧ (∀ buffer : List Nat,
      (∀ (i : Nat) (h : i < BITMAP_PATTERN_TABLE.length),
        initialBytesMatchB buffer (BITMAP_PATTERN_TABLE.get ⟨i, h⟩) = false) →
      detectMimeType buffer = UNKNOWN_BITMAP_MIME) := by
  have hig : ∀ item ∈ BITMAP_PATTERN_TABLE, item.ignored = [] := by decide
  have hbridge : ∀ (buffer : List Nat), ∀ item ∈ BITMAP_PATTERN_TABLE,
      isPatternMatch buffer item = initialBytesMatchB buffer item :=
    fun buffer item hm => isPatternMatch_eq_initial buffer item (hig item hm)
  refine ⟨?_, ?_, ?_⟩
  · intro buffer i h hshort
    unfold isPatternMatch
    rw [if_pos hshort]
  · intro buffer i h hmatch hearlier
    unfold detectMimeType
    refine detectAux_first buffer BITMAP_PATTERN_TABLE i h ?_ ?_
    · rw [hbridge buffer _ (BITMAP_PATTERN_TABLE.get_mem i h)]
      exact hmatch
    · intro j hj
      rw [hbridge buffer _ (BITMAP_PATTERN_TABLE.get_mem j (Nat.lt_trans hj h))]
      exact hearlier j hj
  · intro buffer hnone
    unfold detectMimeType
    refine detectAux_unmatched buffer BITMAP_PATTERN_TABLE ?_
    intro item hit
    obtain ⟨⟨i, h⟩, rfl⟩ := List.mem_iff_get.mp hit
    rw [hbridge buffer _ hit]
    exact hnone i h

/-- Witness for C4: the PNG signature (table entry 6, with entries 0–5 not
matching) is classified `image/png`; the buffer `[1, 2, 3]`, matched by no
entry, is classified unknown. -/
theorem mime_sniffer_table_matching_witness :
    detectMimeType pngSignature = "image/png"
    ∧ detectMimeType [1, 2, 3] = UNKNOWN_BITMAP_MIME := by
  constructor
  · have h := mime_sniffer_table_matching.2.1 pngSignature 6 (by decide) (by decide)
      (by decide)
    rw [h]
    decide
  · exact mime_sniffer_table_matching.2.2 [1, 2, 3] (by decide)
